import Mathlib

/-!
Verification of the subscription-tracker core logic.

The development shallowly embeds the subscription model
(src/unnamed/part_006, models/Subscription.js) and the subscription
controller (src/backend/src/controllers/subscriptionController.js).

Modelling conventions:
* JavaScript numbers are modelled as rationals (ℚ); timestamps are
  rationals counting milliseconds since the epoch.
* Calendar dates handled by the JavaScript Date object are modelled as
  year/month/day triples; Date's documented normalization (ECMA-262
  MakeDay: an out-of-range day-of-month rolls over into the following
  month) is embedded in the month/year arithmetic below.
* Strings stay strings: schema enums such as billingCycle and status are
  validation-layer facts, while the virtuals and methods under study
  switch on whatever string the document carries, with default branches.
-/

/-- A calendar date as the JavaScript Date object presents it:
year, 1-based month, 1-based day-of-month. -/
structure JSDate where
  year : Nat
  month : Nat
  day : Nat
deriving DecidableEq, Repr

/-- Gregorian leap-year rule (as implemented by the JS Date object). -/
def isLeapYear (y : Nat) : Bool :=
  (y % 4 == 0 && y % 100 != 0) || y % 400 == 0

/-- Number of days in a (1-based) month of a given year. -/
def daysInMonth (y m : Nat) : Nat :=
  if m = 2 then (if isLeapYear y then 29 else 28)
  else if m = 4 ∨ m = 6 ∨ m = 9 ∨ m = 11 then 30
  else 31

/-- The year/month pair one calendar month after the given one. -/
def nextMonth (y m : Nat) : Nat × Nat :=
  if m = 12 then (y + 1, 1) else (y, m + 1)

/-- Semantics of JavaScript date.setMonth(date.getMonth() + k) for a
valid input date and k ≥ 0: the month index advances by k and the
day-of-month is kept; if the target month is too short, ECMA-262
MakeDay rolls the excess days over into the following month
(e.g. Jan 31 + 1 month = Feb 31 = Mar 2 or Mar 3). Since the input day
is at most 31 and every month has at least 28 days, at most one
month of carry occurs. -/
def addMonths (d : JSDate) (k : Nat) : JSDate :=
  let t := (d.month - 1) + k
  let y := d.year + t / 12
  let m := t % 12 + 1
  if d.day ≤ daysInMonth y m then ⟨y, m, d.day⟩
  else
    let p := nextMonth y m
    ⟨p.1, p.2, d.day - daysInMonth y m⟩

/-- Semantics of JavaScript date.setFullYear(date.getFullYear() + 1):
same month and day in the next year, with the same MakeDay roll-over
when the day does not exist there (Feb 29 → Mar 1 in a non-leap year). -/
def addYear (d : JSDate) : JSDate :=
  let y := d.year + 1
  if d.day ≤ daysInMonth y d.month then ⟨y, d.month, d.day⟩
  else
    let p := nextMonth y d.month
    ⟨p.1, p.2, d.day - daysInMonth y d.month⟩

/-- Semantics of JavaScript date.setDate(date.getDate() + 7): seven days
later, rolling into the next month when needed (7 < 28, so at most one
month of carry for a valid input date). -/
def addDays7 (d : JSDate) : JSDate :=
  let dd := d.day + 7
  if dd ≤ daysInMonth d.year d.month then ⟨d.year, d.month, dd⟩
  else
    let p := nextMonth d.year d.month
    ⟨p.1, p.2, dd - daysInMonth d.year d.month⟩

/-- subscriptionSchema.methods.calculateNextBillingDate
(src/unnamed/part_006 lines 375-396): switch on billingCycle; weekly
adds 7 days, monthly adds one month, quarterly adds three months,
yearly adds one year, and any other value leaves the copied date
unchanged (the switch has no default branch). -/
def calculateNextBillingDate (billingCycle : String) (fromDate : JSDate) : JSDate :=
  if billingCycle = "weekly" then addDays7 fromDate
  else if billingCycle = "monthly" then addMonths fromDate 1
  else if billingCycle = "quarterly" then addMonths fromDate 3
  else if billingCycle = "yearly" then addYear fromDate
  else fromDate

/-- A date is valid when its month is 1..12 and its day exists in that
month (what a JS Date holding that calendar day satisfies). -/
def ValidDate (d : JSDate) : Prop :=
  1 ≤ d.month ∧ d.month ≤ 12 ∧ 1 ≤ d.day ∧ d.day ≤ daysInMonth d.year d.month

instance (d : JSDate) : Decidable (ValidDate d) := by
  unfold ValidDate; infer_instance

/-- A stored subscription document, with the fields the controller and
the schema virtuals/methods read (src/unnamed/part_006 lines 105-295).
Timestamps (nextBillingDate, lastReminderSent, createdAt) are
milliseconds since the epoch, as JS date arithmetic coerces them. -/
structure Subscription where
  id : Nat
  name : String
  cost : ℚ
  currency : String
  billingCycle : String
  category : String
  status : String
  nextBillingDate : ℚ
  reminderEnabled : Bool
  reminderDaysBefore : ℚ
  lastReminderSent : Option ℚ
  createdAt : ℚ
deriving DecidableEq, Repr

/-- Virtual monthlyCost (src/unnamed/part_006 lines 333-346): switch on
billingCycle with weekly → cost * 4.33, monthly → cost,
quarterly → cost / 3, yearly → cost / 12, default → cost. -/
def monthlyCost (sub : Subscription) : ℚ :=
  if sub.billingCycle = "weekly" then sub.cost * (433 / 100)
  else if sub.billingCycle = "monthly" then sub.cost
  else if sub.billingCycle = "quarterly" then sub.cost / 3
  else if sub.billingCycle = "yearly" then sub.cost / 12
  else sub.cost

/-- Virtual yearlyCost (src/unnamed/part_006 lines 351-353):
this.monthlyCost * 12. -/
def yearlyCost (sub : Subscription) : ℚ :=
  monthlyCost sub * 12

/-- subscriptionSchema.methods.shouldSendReminder (src/unnamed/part_006
lines 409-432), with the value of the ambient clock Date.now() passed
in explicitly as now (milliseconds since the epoch). -/
def shouldSendReminder (sub : Subscription) (now : ℚ) : Bool :=
  if sub.status ≠ "active" ∨ sub.reminderEnabled = false then false
  else if (match sub.lastReminderSent with
           | some t => decide ((now - t) / (1000 * 60 * 60) < 24)
           | none => false) then false
  else
    let daysUntilBilling := (sub.nextBillingDate - now) / (1000 * 60 * 60 * 24)
    decide (daysUntilBilling ≤ sub.reminderDaysBefore ∧ daysUntilBilling > 0)

/-!
The creation path (claim C2): a new document as handed to
Subscription.create, the schema's required-field validation, and the
user-defined pre('save') hook of src/unnamed/part_006 lines 446-452.
Mongoose's documented save pipeline runs validation before any
user-defined pre('save') hook: the built-in validateBeforeSave plugin
registers validation as a pre('save') hook unshifted to the FRONT of
the hook queue, so required-field validation sees the document before
the auto-fill hook can touch it.
-/

/-- A document about to be saved, before validation: every field that
may still be absent is an Option. billingCycle and startDate carry
schema defaults ("monthly", Date.now) and are present by save time.
Calendar dates are JSDate values because the pre-save hook feeds
startDate to calculateNextBillingDate. -/
structure NewSubscription where
  name : Option String
  cost : Option ℚ
  billingCycle : String
  category : Option String
  startDate : Option JSDate
  nextBillingDate : Option JSDate
deriving DecidableEq, Repr

/-- The schema's required-field validators (src/unnamed/part_006:
name, cost, billingCycle, startDate, nextBillingDate and category are
required; billingCycle and startDate always hold their defaults). -/
def validateRequired (d : NewSubscription) : Bool :=
  d.name.isSome && d.cost.isSome && d.category.isSome &&
    d.startDate.isSome && d.nextBillingDate.isSome

/-- The user-defined pre('save') hook (src/unnamed/part_006 lines
446-452): if nextBillingDate is not set and startDate is, derive
nextBillingDate from startDate and the billing cycle. -/
def preSaveHook (d : NewSubscription) : NewSubscription :=
  match d.nextBillingDate, d.startDate with
  | none, some s =>
      { d with nextBillingDate := some (calculateNextBillingDate d.billingCycle s) }
  | _, _ => d

/-- The save pipeline as Mongoose runs it for Subscription.create:
the built-in validation hook (unshifted to the front of the pre('save')
queue) rejects the document first; only then do user-defined
pre('save') hooks such as preSaveHook run, and the document persists. -/
def saveSubscription (d : NewSubscription) : Except String NewSubscription :=
  if validateRequired d then Except.ok (preSaveHook d)
  else Except.error "ValidationError"

/-!
Controller models (src/backend/src/controllers/subscriptionController.js),
over an in-memory list of one user's already-fetched documents.
-/

/-- The status/category query filter of getAllSubscriptions (controller
lines 17-29): an absent parameter imposes no constraint, a present one
requires an exact match. -/
def matchesQuery (statusQ categoryQ : Option String) (sub : Subscription) : Bool :=
  (match statusQ with
   | some s => sub.status == s
   | none => true) &&
  (match categoryQ with
   | some c => sub.category == c
   | none => true)

/-- Comparison key selected by the controller's sortOption (lines
31-43): cost-high descending cost, cost-low ascending cost,
date-newest descending createdAt, date-oldest ascending createdAt,
anything else ascending nextBillingDate. -/
def sortLE (sortQ : Option String) (a b : Subscription) : Prop :=
  if sortQ = some "cost-high" then b.cost ≤ a.cost
  else if sortQ = some "cost-low" then a.cost ≤ b.cost
  else if sortQ = some "date-newest" then b.createdAt ≤ a.createdAt
  else if sortQ = some "date-oldest" then a.createdAt ≤ b.createdAt
  else a.nextBillingDate ≤ b.nextBillingDate

instance (sortQ : Option String) : DecidableRel (sortLE sortQ) := by
  unfold sortLE; intro a b; infer_instance

instance (sortQ : Option String) : IsTotal Subscription (sortLE sortQ) := by
  constructor; intro a b; unfold sortLE
  split
  · exact le_total b.cost a.cost
  split
  · exact le_total a.cost b.cost
  split
  · exact le_total b.createdAt a.createdAt
  split
  · exact le_total a.createdAt b.createdAt
  · exact le_total a.nextBillingDate b.nextBillingDate

instance (sortQ : Option String) : IsTrans Subscription (sortLE sortQ) := by
  constructor; intro a b c; unfold sortLE
  split
  · exact fun h h' => le_trans h' h
  split
  · exact fun h h' => le_trans h h'
  split
  · exact fun h h' => le_trans h' h
  split
  · exact fun h h' => le_trans h h'
  · exact fun h h' => le_trans h h'

/-- Result shape of GET /api/subscriptions (controller lines 55-61).
totalMonthly and totalYearly are kept as exact rationals; the
controller formats them with toFixed(2) only when serializing. -/
structure ListResult where
  count : Nat
  totalMonthly : ℚ
  totalYearly : ℚ
  subscriptions : List Subscription
deriving Repr

/-- getAllSubscriptions (controller lines 15-61) over the user's
records: filter by the optional status/category parameters, sort by
the selected key, then sum monthlyCost over the active records of the
result; count is the length of the filtered list and
totalYearly = totalMonthly * 12. -/
def getAllSubscriptions (records : List Subscription)
    (statusQ categoryQ sortQ : Option String) : ListResult :=
  let subscriptions :=
    List.insertionSort (sortLE sortQ) (records.filter (matchesQuery statusQ categoryQ))
  let totalMonthly :=
    ((subscriptions.filter (fun sub => sub.status == "active")).map monthlyCost).sum
  { count := subscriptions.length
    totalMonthly := totalMonthly
    totalYearly := totalMonthly * 12
    subscriptions := subscriptions }

/-- One millisecond-valued day, the divisor 1000 * 60 * 60 * 24 used
throughout the controller and the schema methods. -/
def msPerDay : ℚ := 1000 * 60 * 60 * 24

/-- The upcoming-renewals window filter of getSubscriptionStats
(controller lines 329-340): status active and nextBillingDate between
now and now + 30 days, both bounds inclusive ($gte/$lte). -/
def inRenewalWindow (now : ℚ) (sub : Subscription) : Bool :=
  sub.status == "active" &&
    decide (now ≤ sub.nextBillingDate) &&
    decide (sub.nextBillingDate ≤ now + 30 * msPerDay)

/-- Projection of one upcoming renewal (controller lines 349-357). -/
structure RenewalEntry where
  id : Nat
  name : String
  cost : ℚ
  nextBillingDate : ℚ
  daysUntil : ℤ
deriving DecidableEq, Repr

/-- Math.ceil((sub.nextBillingDate - new Date()) / (1000*60*60*24))
applied to one record (controller lines 354-356). -/
def projectRenewal (now : ℚ) (sub : Subscription) : RenewalEntry :=
  { id := sub.id
    name := sub.name
    cost := sub.cost
    nextBillingDate := sub.nextBillingDate
    daysUntil := Int.ceil ((sub.nextBillingDate - now) / msPerDay) }

/-- Ascending nextBillingDate order on subscriptions, the
sort({ nextBillingDate: 1 }) of getSubscriptionStats. -/
def nbdLE (a b : Subscription) : Prop :=
  a.nextBillingDate ≤ b.nextBillingDate

instance : DecidableRel nbdLE := by
  unfold nbdLE; intro a b; infer_instance

instance : IsTotal Subscription nbdLE :=
  ⟨fun a b => le_total a.nextBillingDate b.nextBillingDate⟩

instance : IsTrans Subscription nbdLE :=
  ⟨fun _ _ _ h h' => le_trans h h'⟩

/-- The upcomingRenewals field of getSubscriptionStats (controller
lines 329-357): the user's active records inside the 30-day window,
sorted ascending by nextBillingDate and projected. -/
def upcomingRenewals (records : List Subscription) (now : ℚ) : List RenewalEntry :=
  (List.insertionSort nbdLE (records.filter (inRenewalWindow now))).map
    (projectRenewal now)

/-!
Creation and update payload handling (claims C10 and C2's caller).
-/

/-- The request body fields createSubscription destructures (controller
lines 129-143). A caller may also send a currency field; the handler
never reads it, so it is carried here only to state that fact. -/
structure CreateBody where
  name : String
  description : Option String
  cost : ℚ
  billingCycle : String
  startDate : Option ℚ
  nextBillingDate : Option ℚ
  category : String
  currency : Option String
deriving Repr

/-- The fields of the subscriptionData object that createSubscription
assembles and hands to Subscription.create (controller lines 146-166),
restricted to the ones the claims read. -/
structure CreateData where
  userId : Nat
  name : String
  cost : ℚ
  currency : String
  billingCycle : String
  category : String
  nextBillingDate : Option ℚ
deriving Repr

/-- createSubscription's construction of subscriptionData (controller
lines 146-154): currency is the literal "INR" regardless of the body. -/
def createSubscriptionData (userId : Nat) (body : CreateBody) : CreateData :=
  { userId := userId
    name := body.name
    cost := body.cost
    currency := "INR"
    billingCycle := body.billingCycle
    category := body.category
    nextBillingDate := body.nextBillingDate }

/-- A partial update document as sent in the PUT body: present fields
overwrite, absent ones are left alone (findByIdAndUpdate $set
semantics for a flat payload). -/
structure UpdateBody where
  name : Option String
  cost : Option ℚ
  currency : Option String
  billingCycle : Option String
  category : Option String
  status : Option String
  nextBillingDate : Option ℚ
deriving Repr

/-- The spread { ...req.body, currency: "INR" } of updateSubscription
(controller line 214): whatever currency the caller sent is replaced. -/
def buildUpdateData (body : UpdateBody) : UpdateBody :=
  { body with currency := some "INR" }

/-- Field-wise application of an update document to a stored record,
as findByIdAndUpdate persists it (controller lines 216-219). -/
def applyUpdate (sub : Subscription) (u : UpdateBody) : Subscription :=
  { sub with
    name := u.name.getD sub.name
    cost := u.cost.getD sub.cost
    currency := u.currency.getD sub.currency
    billingCycle := u.billingCycle.getD sub.billingCycle
    category := u.category.getD sub.category
    status := u.status.getD sub.status
    nextBillingDate := u.nextBillingDate.getD sub.nextBillingDate }

/-- updateSubscription's persisted result (controller lines 211-219). -/
def updateSubscription (sub : Subscription) (body : UpdateBody) : Subscription :=
  applyUpdate sub (buildUpdateData body)

/-- A creation payload with startDate present and nextBillingDate
absent, the auto-fill scenario of claim C2. -/
def missingNbdDoc : NewSubscription :=
  { name := some "Netflix"
    cost := some 499
    billingCycle := "monthly"
    category := some "Entertainment"
    startDate := some ⟨2024, 1, 15⟩
    nextBillingDate := none }

/-- nextMonth iterated k times: the calendar month k whole months after
the given year/month pair. -/
def nextMonthIter : Nat → Nat × Nat → Nat × Nat
  | 0, p => p
  | k + 1, p => nextMonthIter k (nextMonth p.1 p.2)

/-!
Theorems settling the claims.
-/

/-- C1, counterexample: the claim says computeNextBillingDate(2024-01-31,
monthly) = 2024-02-29 (day clamped to the target month's last day); the
code's JS setMonth arithmetic instead rolls the excess days over and
yields 2024-03-02. -/
theorem C1_counterexample :
    calculateNextBillingDate "monthly" ⟨2024, 1, 31⟩ = ⟨2024, 3, 2⟩ ∧
    calculateNextBillingDate "monthly" ⟨2024, 1, 31⟩ ≠ ⟨2024, 2, 29⟩ ∧
    calculateNextBillingDate "monthly" ⟨2023, 1, 31⟩ = ⟨2023, 3, 3⟩ ∧
    calculateNextBillingDate "monthly" ⟨2023, 1, 31⟩ ≠ ⟨2023, 2, 28⟩ ∧
    calculateNextBillingDate "yearly" ⟨2024, 2, 29⟩ = ⟨2025, 3, 1⟩ ∧
    calculateNextBillingDate "yearly" ⟨2024, 2, 29⟩ ≠ ⟨2025, 2, 28⟩ := by
  decide

/-- C1, amended: for every valid anchor date the calculator advances by
whole calendar periods with JS Date roll-over rather than clamping:
for monthly (and quarterly, advancing three months) the day-of-month is
preserved when the target month has that day, and otherwise the excess
days roll over into the month after the target; for yearly the month
and day are preserved when the day exists in the target year, while a
Feb 29 anchor advanced into a non-leap year rolls over to Mar 1. -/
theorem C1_rollover_advance (d : JSDate) (h : ValidDate d) :
    (calculateNextBillingDate "monthly" d =
      (let p := nextMonthIter 1 (d.year, d.month)
       if d.day ≤ daysInMonth p.1 p.2 then ⟨p.1, p.2, d.day⟩
       else ⟨(nextMonth p.1 p.2).1, (nextMonth p.1 p.2).2,
         d.day - daysInMonth p.1 p.2⟩)) ∧
    (calculateNextBillingDate "quarterly" d =
      (let p := nextMonthIter 3 (d.year, d.month)
       if d.day ≤ daysInMonth p.1 p.2 then ⟨p.1, p.2, d.day⟩
       else ⟨(nextMonth p.1 p.2).1, (nextMonth p.1 p.2).2,
         d.day - daysInMonth p.1 p.2⟩)) ∧
    (d.month = 2 → d.day = 29 → isLeapYear (d.year + 1) = false →
      calculateNextBillingDate "yearly" d = ⟨d.year + 1, 3, 1⟩) ∧
    (d.day ≤ daysInMonth (d.year + 1) d.month →
      calculateNextBillingDate "yearly" d = ⟨d.year + 1, d.month, d.day⟩) := by
  obtain ⟨y, m, day⟩ := d
  obtain ⟨hm1, hm12, hd1, hd2⟩ := h
  refine ⟨?_, ?_, ?_, ?_⟩
  · interval_cases m <;>
      simp [calculateNextBillingDate, addMonths, nextMonthIter, nextMonth]
  · interval_cases m <;>
      simp [calculateNextBillingDate, addMonths, nextMonthIter, nextMonth]
  · intro h2 h29 hleap
    simp only at h2 h29
    subst h2
    subst h29
    simp [calculateNextBillingDate, addYear, daysInMonth, nextMonth, hleap]
  · intro hle
    simp only at hle
    simp [calculateNextBillingDate, addYear, hle]

/-- C1 witness: the roll-over characterization applied at the concrete
anchor 2024-01-31 under the monthly cycle. -/
theorem C1_witness :
    calculateNextBillingDate "monthly" ⟨2024, 1, 31⟩ =
      (let p := nextMonthIter 1 (2024, 1)
       if 31 ≤ daysInMonth p.1 p.2 then ⟨p.1, p.2, 31⟩
       else ⟨(nextMonth p.1 p.2).1, (nextMonth p.1 p.2).2,
         31 - daysInMonth p.1 p.2⟩) :=
  (C1_rollover_advance ⟨2024, 1, 31⟩ (by decide)).1

/-- C4: for every record — hence for every cost and every billing-cycle
string, in range or not — the yearlyCost virtual equals the monthlyCost
virtual times 12, exactly (the source computes it as exactly that
product). -/
theorem C4_yearlyCost_eq_monthlyCost_mul_twelve (sub : Subscription) :
    yearlyCost sub = monthlyCost sub * 12 :=
  rfl

/-- C5: for every record with non-negative cost, the monthly
normalization follows the fixed table — weekly: cost * 4.33, monthly:
cost, quarterly: cost / 3, yearly: cost / 12 — and any other
billingCycle string falls back to returning the cost unchanged. -/
theorem C5_normalizeCost_table (sub : Subscription) (_hc : 0 ≤ sub.cost) :
    (sub.billingCycle = "weekly" → monthlyCost sub = sub.cost * (433 / 100)) ∧
    (sub.billingCycle = "monthly" → monthlyCost sub = sub.cost) ∧
    (sub.billingCycle = "quarterly" → monthlyCost sub = sub.cost / 3) ∧
    (sub.billingCycle = "yearly" → monthlyCost sub = sub.cost / 12) ∧
    (sub.billingCycle ≠ "weekly" → sub.billingCycle ≠ "monthly" →
      sub.billingCycle ≠ "quarterly" → sub.billingCycle ≠ "yearly" →
      monthlyCost sub = sub.cost) := by
  refine ⟨fun h => ?_, fun h => ?_, fun h => ?_, fun h => ?_,
    fun h1 h2 h3 h4 => ?_⟩ <;>
    simp [monthlyCost, *]

/-- C5 witness: the table evaluated at a concrete yearly record of cost
1200 gives monthly cost 100. -/
theorem C5_witness :
    (0 : ℚ) ≤ (1200 : ℚ) ∧
    monthlyCost
      { id := 1, name := "Prime", cost := 1200, currency := "INR",
        billingCycle := "yearly", category := "Entertainment",
        status := "active", nextBillingDate := 0, reminderEnabled := true,
        reminderDaysBefore := 3, lastReminderSent := none, createdAt := 0 }
      = 100 := by
  refine ⟨by norm_num, ?_⟩
  have h := (C5_normalizeCost_table
    { id := 1, name := "Prime", cost := 1200, currency := "INR",
      billingCycle := "yearly", category := "Entertainment",
      status := "active", nextBillingDate := 0, reminderEnabled := true,
      reminderDaysBefore := 3, lastReminderSent := none, createdAt := 0 }
    (by norm_num)).2.2.2.1 rfl
  rw [h]
  norm_num

/-- C10: every record persisted through create or update carries
currency "INR": createSubscription writes the literal "INR" whatever
the body held, and updateSubscription spreads the body and then
overwrites its currency field with "INR". -/
theorem C10_currency_invariant :
    (∀ (userId : Nat) (body : CreateBody),
      (createSubscriptionData userId body).currency = "INR") ∧
    (∀ (sub : Subscription) (body : UpdateBody),
      (updateSubscription sub body).currency = "INR") :=
  ⟨fun _ _ => rfl, fun _ _ => rfl⟩

/-- C2, code evaluated at the failing input: a creation payload whose
nextBillingDate is absent but whose startDate is present is rejected by
required-field validation before the auto-fill pre('save') hook runs,
so creation fails — while the hook, had it been reached, would have
derived 2024-02-15 from the 2024-01-15 start date. -/
theorem C2_creation_rejected :
    saveSubscription missingNbdDoc = Except.error "ValidationError" ∧
    (preSaveHook missingNbdDoc).nextBillingDate = some ⟨2024, 2, 15⟩ :=
  ⟨rfl, by decide⟩

/-- C3: with the ambient clock passed as now, shouldSendReminder
returns true iff the record is active, reminders are enabled, any
previously sent reminder is at least 24 hours old (measured in hours of
elapsed clock time), and daysUntilBilling = (nextBillingDate − now) /
1 day is strictly positive and at most reminderDaysBefore; in
particular it is false whenever daysUntilBilling ≤ 0. -/
theorem C3_isReminderDue_iff (sub : Subscription) (now : ℚ) :
    (shouldSendReminder sub now = true ↔
      (sub.status = "active" ∧ sub.reminderEnabled = true ∧
        (∀ t, sub.lastReminderSent = some t →
          (24 : ℚ) ≤ (now - t) / (1000 * 60 * 60)) ∧
        0 < (sub.nextBillingDate - now) / (1000 * 60 * 60 * 24) ∧
        (sub.nextBillingDate - now) / (1000 * 60 * 60 * 24) ≤
          sub.reminderDaysBefore)) ∧
    ((sub.nextBillingDate - now) / (1000 * 60 * 60 * 24) ≤ 0 →
      shouldSendReminder sub now = false) := by
  constructor
  · by_cases h1 : sub.status = "active"
    · by_cases h2 : sub.reminderEnabled = true
      · cases hl : sub.lastReminderSent with
        | none =>
            simp [shouldSendReminder, h1, h2, hl]
            tauto
        | some t =>
            by_cases hd : (now - t) / (1000 * 60 * 60) < 24
            · simp [shouldSendReminder, h1, h2, hl, hd]
            · have hd' : (24 : ℚ) ≤ (now - t) / (1000 * 60 * 60) := not_lt.mp hd
              simp [shouldSendReminder, h1, h2, hl, hd, hd']
              tauto
      · simp only [Bool.not_eq_true] at h2
        simp [shouldSendReminder, h2]
    · simp [shouldSendReminder, h1]
  · intro hle
    unfold shouldSendReminder
    split
    · rfl
    · split
      · rfl
      · dsimp only
        simp only [decide_eq_false_iff_not, not_and]
        intro _ hpos
        exact absurd hle (not_le.mpr hpos)

/-- An active monthly record two days away from billing with a
three-day reminder window and no reminder sent yet. -/
def sampleReminderSub : Subscription :=
  { id := 2
    name := "Gym"
    cost := 50
    currency := "INR"
    billingCycle := "monthly"
    category := "Fitness"
    status := "active"
    nextBillingDate := 172800000
    reminderEnabled := true
    reminderDaysBefore := 3
    lastReminderSent := none
    createdAt := 0 }

/-- C3 witness: at clock 0 the sample record (billing in exactly two
days) satisfies every condition of the characterization, so the code
flags the reminder as due. -/
theorem C3_witness : shouldSendReminder sampleReminderSub 0 = true := by
  have h := (C3_isReminderDue_iff sampleReminderSub 0).1
  refine h.mpr ⟨rfl, rfl, ?_, ?_, ?_⟩
  · intro t ht
    simp [sampleReminderSub] at ht
  · norm_num [sampleReminderSub]
  · norm_num [sampleReminderSub]

/-- Removing an element that fails the predicate makes the filtered
list strictly shorter than the original. -/
theorem length_filter_lt_of_mem_false {α : Type} (p : α → Bool) {l : List α}
    {a : α} (ha : a ∈ l) (hpa : p a = false) :
    (l.filter p).length < l.length := by
  induction l with
  | nil => cases ha
  | cons b l ih =>
      rcases List.mem_cons.mp ha with rfl | ha'
      · rw [List.filter_cons, hpa]
        simp only [List.length_cons]
        exact Nat.lt_succ_of_le (List.length_filter_le p l)
      · rw [List.filter_cons]
        by_cases hb : p b = true
        · simp only [hb, if_true, List.length_cons]
          exact Nat.succ_lt_succ (ih ha')
        · simp only [Bool.not_eq_true] at hb
          simp only [hb, Bool.false_eq_true, if_false, List.length_cons]
          exact Nat.lt_succ_of_lt (ih ha')

/-- C7: the upcomingRenewals field of the stats summary holds exactly
the projections of the active records whose nextBillingDate lies in
[now, now + 30 days] — cancelled and paused records never contribute —
as a list sorted ascending by nextBillingDate, with each entry's
daysUntil the ceiling of the fractional days to billing (that is the
projectRenewal projection). -/
theorem C7_upcomingRenewals_characterization
    (records : List Subscription) (now : ℚ) :
    (∀ e, e ∈ upcomingRenewals records now ↔
      ∃ sub, sub ∈ records ∧ sub.status = "active" ∧
        now ≤ sub.nextBillingDate ∧
        sub.nextBillingDate ≤ now + 30 * msPerDay ∧
        e = projectRenewal now sub) ∧
    List.Perm (upcomingRenewals records now)
      ((records.filter (inRenewalWindow now)).map (projectRenewal now)) ∧
    List.Sorted (fun a b : RenewalEntry => a.nextBillingDate ≤ b.nextBillingDate)
      (upcomingRenewals records now) := by
  refine ⟨?_, ?_, ?_⟩
  · intro e
    simp only [upcomingRenewals, List.mem_map, List.mem_insertionSort,
      List.mem_filter, inRenewalWindow, Bool.and_eq_true, beq_iff_eq,
      decide_eq_true_eq]
    constructor
    · rintro ⟨sub, ⟨hmem, ⟨hst, h1⟩, h2⟩, rfl⟩
      exact ⟨sub, hmem, hst, h1, h2, rfl⟩
    · rintro ⟨sub, hmem, hst, h1, h2, rfl⟩
      exact ⟨sub, ⟨hmem, ⟨hst, h1⟩, h2⟩, rfl⟩
  · exact List.Perm.map _ (List.perm_insertionSort _ _)
  · exact List.Pairwise.map _ (fun a b h => h)
      (List.sorted_insertionSort nbdLE (records.filter (inRenewalWindow now)))

/-- C7 witness: for one active record billing ten days from clock 0 and
one cancelled record billing five days out, the characterization puts
exactly the active record's projection in the list. -/
theorem C7_witness :
    ∀ e, e ∈ upcomingRenewals
        [{ id := 3, name := "Disney", cost := 299, currency := "INR",
           billingCycle := "monthly", category := "Entertainment",
           status := "cancelled", nextBillingDate := 5 * msPerDay,
           reminderEnabled := true, reminderDaysBefore := 3,
           lastReminderSent := none, createdAt := 0 },
         { id := 4, name := "Netflix", cost := 499, currency := "INR",
           billingCycle := "monthly", category := "Entertainment",
           status := "active", nextBillingDate := 10 * msPerDay,
           reminderEnabled := true, reminderDaysBefore := 3,
           lastReminderSent := none, createdAt := 0 }] 0 ↔
      ∃ sub, sub ∈
          [{ id := 3, name := "Disney", cost := 299, currency := "INR",
             billingCycle := "monthly", category := "Entertainment",
             status := "cancelled", nextBillingDate := 5 * msPerDay,
             reminderEnabled := true, reminderDaysBefore := 3,
             lastReminderSent := none, createdAt := 0 },
           { id := 4, name := "Netflix", cost := 499, currency := "INR",
             billingCycle := "monthly", category := "Entertainment",
             status := "active", nextBillingDate := 10 * msPerDay,
             reminderEnabled := true, reminderDaysBefore := 3,
             lastReminderSent := none, createdAt := 0 }] ∧
        sub.status = "active" ∧ (0 : ℚ) ≤ sub.nextBillingDate ∧
        sub.nextBillingDate ≤ 0 + 30 * msPerDay ∧
        e = projectRenewal 0 sub :=
  (C7_upcomingRenewals_characterization _ 0).1

/-- C9: in the list operation, count is the number of records matching
the status/category filter whatever their status, the monthly and
yearly totals sum monthlyCost over the matching ACTIVE records only,
and whenever some matching record is non-active the count strictly
exceeds the number of records contributing to the totals. -/
theorem C9_count_vs_totals (records : List Subscription)
    (statusQ categoryQ sortQ : Option String) :
    (getAllSubscriptions records statusQ categoryQ sortQ).count =
        (records.filter (matchesQuery statusQ categoryQ)).length ∧
    (getAllSubscriptions records statusQ categoryQ sortQ).totalMonthly =
        (((records.filter (matchesQuery statusQ categoryQ)).filter
            (fun sub => sub.status == "active")).map monthlyCost).sum ∧
    (getAllSubscriptions records statusQ categoryQ sortQ).totalYearly =
        (getAllSubscriptions records statusQ categoryQ sortQ).totalMonthly * 12 ∧
    (∀ sub, sub ∈ records → matchesQuery statusQ categoryQ sub = true →
      sub.status ≠ "active" →
      ((records.filter (matchesQuery statusQ categoryQ)).filter
          (fun sub => sub.status == "active")).length <
        (getAllSubscriptions records statusQ categoryQ sortQ).count) := by
  have hperm :
      List.Perm
        (List.insertionSort (sortLE sortQ)
          (records.filter (matchesQuery statusQ categoryQ)))
        (records.filter (matchesQuery statusQ categoryQ)) :=
    List.perm_insertionSort _ _
  refine ⟨hperm.length_eq, ?_, rfl, ?_⟩
  · exact ((hperm.filter _).map monthlyCost).sum_eq
  · intro sub hmem hmatch hstat
    show _ < (List.insertionSort (sortLE sortQ)
      (records.filter (matchesQuery statusQ categoryQ))).length
    rw [hperm.length_eq]
    have hmem' : sub ∈ records.filter (matchesQuery statusQ categoryQ) :=
      List.mem_filter.mpr ⟨hmem, hmatch⟩
    have hfalse : (sub.status == "active") = false := by
      simp [hstat]
    exact length_filter_lt_of_mem_false _ hmem' hfalse

/-- An active record used in the C9 witness collection. -/
def activeSub9 : Subscription :=
  { id := 5, name := "Spotify", cost := 119, currency := "INR",
    billingCycle := "monthly", category := "Entertainment",
    status := "active", nextBillingDate := 0, reminderEnabled := true,
    reminderDaysBefore := 3, lastReminderSent := none, createdAt := 0 }

/-- A paused record used in the C9 witness collection. -/
def pausedSub9 : Subscription :=
  { id := 6, name := "Adobe", cost := 899, currency := "INR",
    billingCycle := "monthly", category := "Software",
    status := "paused", nextBillingDate := 0, reminderEnabled := true,
    reminderDaysBefore := 3, lastReminderSent := none, createdAt := 0 }

/-- C9 witness: with one paused and one active record and no filters,
the count (2) strictly exceeds the number of records contributing to
the totals (1). -/
theorem C9_witness :
    (([pausedSub9, activeSub9].filter (matchesQuery none none)).filter
        (fun sub => sub.status == "active")).length <
      (getAllSubscriptions [pausedSub9, activeSub9] none none none).count :=
  (C9_count_vs_totals [pausedSub9, activeSub9] none none none).2.2.2
    pausedSub9 (List.mem_cons_self _ _) rfl (by decide)



